import Mathlib

/-!
Shallow embedding of the Blinko release pipeline: the App Release workflow
(app-release.yml) and the docker release workflow (Build and Push Release
Docker Image). Shell steps are translated into pure Lean functions over the
trigger context and explicit repository state; GitHub Actions matrix and
dependency semantics are modelled by small records with their documented
defaults.
-/

/-- Shell parameter expansion TAG#v as used in the workflows: remove one
leading "v" when present, otherwise leave the string unchanged. -/
def stripV (s : String) : String :=
  match s.data with
  | 'v' :: rest => String.mk rest
  | _ => s

/-- The client payload carried by the repository-dispatch event
(trigger-app-release), as emitted by the Trigger App Release Workflow step:
fields tag, version and sha. -/
structure DispatchPayload where
  tag : String
  version : String
  sha : String
deriving DecidableEq

/-- Trigger context of the App Release workflow: a pushed git tag
(GITHUB_REF_NAME), a workflow_dispatch with the required tag input, or a
repository_dispatch carrying a DispatchPayload. -/
inductive TriggerContext where
  | tagPush (refName : String)
  | manualDispatch (tagInput : String)
  | upstreamDispatch (payload : DispatchPayload)
deriving DecidableEq

/-- The final empty-check of the Set Version Variable step: if VERSION is
empty, default to 1.0.0. -/
def defaultIfEmpty (v : String) : String :=
  if v = "" then "1.0.0" else v

/-- The Set Version Variable step of the set-version job (app-release.yml
lines 30 to 57): workflow_dispatch uses the tag input; repository_dispatch
uses the payload version field when nonempty, else the payload tag field;
otherwise the pushed tag with a leading v stripped; an empty result defaults
to 1.0.0. -/
def set_version : TriggerContext → String
  | .manualDispatch t => defaultIfEmpty t
  | .upstreamDispatch p => defaultIfEmpty (if p.version ≠ "" then p.version else p.tag)
  | .tagPush r => defaultIfEmpty (stripV r)

/-- Every optional version-bearing field of the trigger context is absent or
empty (for a tag push: the tag contributes nothing after stripping the v). -/
def TriggerContext.allFieldsEmpty : TriggerContext → Prop
  | .manualDispatch t => t = ""
  | .upstreamDispatch p => p.version = "" ∧ p.tag = ""
  | .tagPush r => stripV r = ""

/-- tauri.conf.json as rewritten by jq: the version field, plus the rest of
the document which the jq filter (.version = v) leaves untouched. -/
structure TauriConf where
  version : String
  rest : String
deriving DecidableEq

/-- The jq rewrite of the Update Tauri Config Version step:
jq sets .version to the resolved version and changes nothing else. -/
def updateTauriVersion (c : TauriConf) (v : String) : TauriConf :=
  { c with version := v }

/-- State of the remote branch as seen by the update-version job: the
committed content of app/src-tauri/tauri.conf.json. -/
structure TauriRepoState where
  committed : TauriConf
deriving DecidableEq

/-- The update-version job of app-release.yml (Update Tauri Config Version
followed by Commit and Push Updated Version): rewrite the file with jq, stage
it, and commit+push only when git diff --staged is nonempty, i.e. only when
the rewritten content differs from the committed content. Returns the new
branch state and the number of commits made (0 or 1). -/
def updateVersionJob (s : TauriRepoState) (v : String) : TauriRepoState × Nat :=
  let newConf := updateTauriVersion s.committed v
  if newConf = s.committed then (s, 0) else (⟨newConf⟩, 1)

/-- package.json as rewritten by the docker workflow: version plus the
untouched remainder. -/
structure PackageJson where
  version : String
  rest : String
deriving DecidableEq

/-- The Update package.json Version step of the docker workflow (part_000
lines 57 to 75): read the current version with jq, and only when it differs
from the resolved version rewrite, commit and push. Returns the new file
state and the number of commits made. -/
def updatePackageJsonJob (p : PackageJson) (v : String) : PackageJson × Nat :=
  if p.version = v then (p, 0) else ({ p with version := v }, 1)

/-- PowerShell test (currentVersion -match a regex of a hyphen followed by
one or more characters then end): true exactly when some hyphen has at least
one character after it, i.e. when the string with its last character removed
still contains a hyphen. -/
def winVersionNeedsFix (s : String) : Bool :=
  s.data.dropLast.contains '-'

/-- The Fix version format for Windows MSI step (app-release.yml lines 128
to 146): when the version matches a hyphen followed by at least one character
up to the end, a replacement of that leftmost match with the empty string is
performed, leaving the prefix before the first such hyphen; otherwise the
version is unchanged. -/
def fixWindowsVersion (s : String) : String :=
  if winVersionNeedsFix s then String.mk (s.data.takeWhile (fun c => c ≠ '-')) else s

/-- The four legs of the publish-desktop matrix. -/
inductive DesktopPlatform where
  | macArm
  | macIntel
  | linux
  | windows
deriving DecidableEq

/-- Version field of the per-job copy of tauri.conf.json at build time in the
publish-desktop matrix: the Windows leg applies the MSI fix (guarded by
matrix.platform == windows-latest); every other leg builds with the
downloaded resolved version unchanged. -/
def desktopManifestVersion (resolved : String) : DesktopPlatform → String
  | .windows => fixWindowsVersion resolved
  | _ => resolved

/-- A GitHub Actions matrix strategy: the fail-fast key when written, and the
number of matrix legs. GitHub documents the default of fail-fast as true. -/
structure MatrixStrategy where
  failFastSetting : Option Bool
  legs : Nat
deriving DecidableEq

/-- Effective fail-fast value of a strategy: the written setting, or the
platform default true when the key is omitted. -/
def effectiveFailFast (s : MatrixStrategy) : Bool :=
  s.failFastSetting.getD true

/-- GitHub Actions matrix semantics: with fail-fast in effect, the failure of
one matrix leg cancels all in-progress sibling legs; without it the siblings
continue. -/
def cancelsSiblingsOnFailure (s : MatrixStrategy) : Bool :=
  effectiveFailFast s

/-- Strategy of the publish-desktop job (app-release.yml lines 103 to 114):
fail-fast is explicitly false; four legs. -/
def publishDesktopStrategy : MatrixStrategy :=
  ⟨some false, 4⟩

/-- Strategy of the build job of the docker workflow (part_000 lines 79 to
86): the matrix has two legs (linux/amd64, linux/arm64) and writes no
fail-fast key. -/
def dockerBuildStrategy : MatrixStrategy :=
  ⟨none, 2⟩

/-- Join-barrier semantics of a needs list: a stage runs only when every
declared predecessor succeeded. -/
def joinBarrierRuns (predecessorsSucceeded : List Bool) : Bool :=
  predecessorsSucceeded.all (· = true)

/-- The declared container target platforms of the docker build matrix. -/
inductive ImagePlatform where
  | amd64
  | arm64
deriving DecidableEq

/-- The declared platform list of the build matrix. -/
def declaredPlatforms : List ImagePlatform :=
  [.amd64, .arm64]

/-- One push performed by the Create manifest list and push step: the image
repository, the tag list and the digest list assembled into one manifest
list. -/
structure ManifestPush where
  registryImage : String
  tags : List String
  digests : List String
deriving DecidableEq

/-- Tag set produced by the metadata action: the raw resolved version, plus
latest when the latest flavor is enabled. -/
def metaTags (version : String) (latestOn : Bool) : List String :=
  if latestOn then [version, "latest"] else [version]

/-- The latest flavor condition of both meta steps of the docker workflow:
enabled unless the event is a workflow_dispatch whose set_latest input is not
the string true. -/
def latestFlavor (eventName : String) (setLatestInput : String) : Bool :=
  eventName ≠ "workflow_dispatch" || setLatestInput = "true"

/-- The Create manifest list and push step (part_000 lines 224 to 231), run
in /tmp/digests: the shell glob expands the digest file names in sorted
order; with no digest file the glob stays literal and the imagetools command
fails (modelled as none); otherwise one manifest list holding every collected
digest is created under every tag and pushed to the Docker Hub repository and
to the ghcr mirror. -/
def mergeStep (digestFiles : List String) (tags : List String) : Option (List ManifestPush) :=
  if digestFiles = [] then none
  else
    let ds := List.insertionSort (· ≤ ·) digestFiles
    some [⟨"blinkospace/blinko", tags, ds⟩, ⟨"ghcr.io/blinkospace/blinko", tags, ds⟩]

/-- Outcome of the build matrix of the docker workflow in one run: for each
declared platform, the digest file its leg uploaded, or none when the leg
failed. The Upload artifact step uses if-no-files-found error, so a
successful leg always has a digest. -/
structure DockerBuildRun where
  uploadedDigest : ImagePlatform → Option String

/-- The build job succeeded as a whole exactly when every matrix leg
succeeded, i.e. every declared platform uploaded its digest. -/
def buildJobSucceeded (r : DockerBuildRun) : Bool :=
  declaredPlatforms.all (fun p => (r.uploadedDigest p).isSome)

/-- The digest files present in /tmp/digests after the Download digests step
(pattern digest-*, merge-multiple): one file per platform whose leg uploaded
one. -/
def collectedDigestFiles (r : DockerBuildRun) : List String :=
  declaredPlatforms.filterMap r.uploadedDigest

/-- The merge job declares needs build, so it runs exactly when the build job
succeeded. -/
def mergeJobRuns (r : DockerBuildRun) : Bool :=
  buildJobSucceeded r

/-- Trigger context of the docker workflow as read by its shell steps: the
event name, the version input (empty unless workflow_dispatch supplied one)
and GITHUB_REF_NAME. -/
structure DockerCtx where
  eventName : String
  inputsVersion : String
  refName : String
deriving DecidableEq

/-- The Get Version step of the update-version job of the docker workflow
(part_000 lines 47 to 53): the version input when the event is a
workflow_dispatch with a nonempty input, else the ref name with a leading v
stripped. -/
def dockerGetVersionStep (c : DockerCtx) : String :=
  if c.eventName = "workflow_dispatch" ∧ c.inputsVersion ≠ "" then c.inputsVersion
  else stripV c.refName

/-- The Prepare step of the build job (part_000 lines 92 to 100) recomputes
VERSION with the same script. -/
def dockerPrepareStep (c : DockerCtx) : String :=
  if c.eventName = "workflow_dispatch" ∧ c.inputsVersion ≠ "" then c.inputsVersion
  else stripV c.refName

/-- The Extract version step of the merge job (part_000 lines 186 to 192)
recomputes VERSION with the same script. -/
def dockerExtractVersionStep (c : DockerCtx) : String :=
  if c.eventName = "workflow_dispatch" ∧ c.inputsVersion ≠ "" then c.inputsVersion
  else stripV c.refName

/-- The Get Version step of the trigger-app-release job (part_000 lines 247
to 253): this job is gated on workflow_dispatch, and its script only tests
whether the version input is nonempty. -/
def dockerTriggerGetVersionStep (c : DockerCtx) : String :=
  if c.inputsVersion ≠ "" then c.inputsVersion
  else stripV c.refName

/-- How a job obtains the release version: by reading the shared set-version
output through the needs context, or by recomputing it from the raw github
event context inside its own shell step. -/
inductive VersionSource where
  | sharedOutput
  | rederivedFromContext
deriving DecidableEq

/-- In app-release.yml, the update-version, publish-desktop, publish-android
and update-release jobs all read needs.set-version.outputs.version. -/
def appReleaseDownstreamSources : List VersionSource :=
  [.sharedOutput, .sharedOutput, .sharedOutput, .sharedOutput]

/-- In the docker workflow, the update-version, build, merge and
trigger-app-release jobs each recompute VERSION from the github context in
their own shell step; none reads a shared job output. -/
def dockerWorkflowVersionSources : List VersionSource :=
  [.rederivedFromContext, .rederivedFromContext, .rederivedFromContext, .rederivedFromContext]

/-- The version acquisition of the Prepare step of the docker build job:
a re-derivation from the github context (part_000 lines 92 to 100). -/
def dockerBuildPrepareSource : VersionSource :=
  .rederivedFromContext

/-- A release record on the hosting service: tag, body, draft flag, and the
attached asset file names. -/
structure ReleaseRecord where
  tag : String
  body : String
  draft : Bool
  assets : List String
deriving DecidableEq

/-- Modelled from the spec: the create-or-append publish operation of the
release hosting service, whose implementation (tauri-action and
action-gh-release) is not under src/. Per section 4.5: attach the files to
the record keyed by the tag, creating the record on first attachment if
absent, otherwise appending, never overwriting assets already attached by a
sibling job. -/
def publishRelease (store : List ReleaseRecord) (tag body : String) (draft : Bool)
    (files : List String) : List ReleaseRecord :=
  if store.any (fun r => r.tag = tag) then
    store.map (fun r => if r.tag = tag then { r with assets := r.assets ++ files } else r)
  else
    store ++ [⟨tag, body, draft, files⟩]

/-- The release body both publish jobs pass before the changelog exists. -/
def placeholderBody : String :=
  "Under construction, full changelog will be updated after build completion..."

/-- The renamed universal APK file name (Rename Android App File step). -/
def apkName (v : String) : String :=
  "Blinko_" ++ v ++ "_universal.apk"

/-- The Build and Publish Desktop App step: tauri-action publishes the
desktop artifacts to the release tagged with the resolved version, non-draft,
with the placeholder body. -/
def desktopPublishStep (v : String) (files : List String)
    (store : List ReleaseRecord) : List ReleaseRecord :=
  publishRelease store v placeholderBody false files

/-- The Publish Android App step: action-gh-release attaches the renamed APK
to the release tagged with the resolved version, non-draft, with the
placeholder body. -/
def androidPublishStep (v : String) (store : List ReleaseRecord) : List ReleaseRecord :=
  publishRelease store v placeholderBody false [apkName v]

/-- A concurrency block of a workflow: the group key as a function of the git
ref (the workflow name is fixed per workflow), and the cancel-in-progress
flag. -/
structure ConcurrencySetting where
  groupOfRef : String → String
  cancelInProgress : Bool

/-- The concurrency block of the docker workflow (part_000 lines 25 to 27):
group is the workflow name joined with the ref, cancel-in-progress true. -/
def dockerConcurrency : ConcurrencySetting :=
  ⟨fun ref => "Build and Push Release Docker Image-" ++ ref, true⟩

/-- The docker workflow declares the above concurrency block. -/
def dockerWorkflowConcurrency : Option ConcurrencySetting :=
  some dockerConcurrency

/-- app-release.yml declares no concurrency block at all (its top level has
only name, on and jobs). -/
def appReleaseConcurrency : Option ConcurrencySetting :=
  none

/-- The build jobs that consume the packaging manifest: the four desktop
matrix legs and the android job. -/
inductive BuildJob where
  | desktop (p : DesktopPlatform)
  | android
deriving DecidableEq

/-- The checkout step materialises the committed tauri.conf.json of the
(possibly stale) ref: its version field is the committed version. -/
def checkoutManifestVersion (committedVersion : String) : String :=
  committedVersion

/-- The Download tauri.conf.json step overwrites the checked-out file with
the tauri-config artifact uploaded by the update-version job, whose version
field is the artifact version. -/
def downloadArtifactStep (_checkedOutVersion artifactVersion : String) : String :=
  artifactVersion

/-- Version field of the manifest a build job actually builds against: the
checked-out committed version, overwritten by the downloaded artifact, then
normalised by the Windows MSI fix on the Windows leg only. -/
def manifestAtBuild (committedVersion resolved : String) : BuildJob → String
  | .desktop .windows =>
      fixWindowsVersion (downloadArtifactStep (checkoutManifestVersion committedVersion) resolved)
  | .desktop _ => downloadArtifactStep (checkoutManifestVersion committedVersion) resolved
  | .android => downloadArtifactStep (checkoutManifestVersion committedVersion) resolved

/-! Theorems. -/

/-- The empty-default guard never returns the empty string. -/
theorem defaultIfEmpty_ne_empty (v : String) : defaultIfEmpty v ≠ "" := by
  unfold defaultIfEmpty
  split
  · decide
  · assumption

/-- C1: for every trigger context, the Set Version Variable step returns a
nonempty version by the documented precedence: the manual-dispatch tag input;
else the upstream payload version field when nonempty, else the payload tag
field when nonempty; else the pushed tag with a leading v stripped when that
is nonempty; and exactly 1.0.0 once every optional field is absent or empty.
Being a total function of the context, the step never aborts. -/
theorem C1_version_resolver_precedence (ctx : TriggerContext) :
    set_version ctx ≠ "" ∧
    (ctx.allFieldsEmpty → set_version ctx = "1.0.0") ∧
    (∀ t, t ≠ "" → set_version (.manualDispatch t) = t) ∧
    (∀ p : DispatchPayload, p.version ≠ "" → set_version (.upstreamDispatch p) = p.version) ∧
    (∀ p : DispatchPayload, p.version = "" → p.tag ≠ "" →
      set_version (.upstreamDispatch p) = p.tag) ∧
    (∀ r, stripV r ≠ "" → set_version (.tagPush r) = stripV r) := by
  refine ⟨?_, ?_, ?_, ?_, ?_, ?_⟩
  · cases ctx <;> exact defaultIfEmpty_ne_empty _
  · cases ctx with
    | tagPush r =>
        intro h
        simp only [TriggerContext.allFieldsEmpty] at h
        simp [set_version, h, defaultIfEmpty]
    | manualDispatch t =>
        intro h
        simp only [TriggerContext.allFieldsEmpty] at h
        simp [set_version, h, defaultIfEmpty]
    | upstreamDispatch p =>
        intro h
        obtain ⟨h1, h2⟩ := h
        simp [set_version, h1, h2, defaultIfEmpty]
  · intro t ht
    simp [set_version, defaultIfEmpty, ht]
  · intro p hp
    simp [set_version, defaultIfEmpty, hp]
  · intro p hp ht
    simp [set_version, defaultIfEmpty, hp, ht]
  · intro r hr
    simp [set_version, defaultIfEmpty, hr]

/-- C1 witness: concrete contexts exercising the default, the manual input
and the stripped pushed tag. -/
theorem C1_version_resolver_precedence_witness :
    set_version (.upstreamDispatch ⟨"", "", ""⟩) = "1.0.0" ∧
    set_version (.manualDispatch "3.1.0-beta") = "3.1.0-beta" ∧
    set_version (.tagPush "v2.0.0") = "2.0.0" := by
  refine ⟨?_, ?_, ?_⟩
  · exact (C1_version_resolver_precedence (.upstreamDispatch ⟨"", "", ""⟩)).2.1 ⟨rfl, rfl⟩
  · exact (C1_version_resolver_precedence
      (.manualDispatch "3.1.0-beta")).2.2.1 "3.1.0-beta" (by decide)
  · have h := (C1_version_resolver_precedence
      (.tagPush "v2.0.0")).2.2.2.2.2 "v2.0.0" (by decide)
    have e : stripV "v2.0.0" = "2.0.0" := by decide
    exact e ▸ h

/-- C2: a second run of the version propagator with the version already
committed makes zero commits: the tauri.conf.json job stages the jq rewrite
and skips the commit when the staged diff is empty, and the package.json job
of the docker workflow skips once the stored version already matches. -/
theorem C2_propagator_second_run_no_commit (s : TauriRepoState) (p : PackageJson) (v : String) :
    (updateVersionJob (updateVersionJob s v).1 v).2 = 0 ∧
    (updatePackageJsonJob (updatePackageJsonJob p v).1 v).2 = 0 := by
  constructor
  · by_cases h : updateTauriVersion s.committed v = s.committed
    · simp [updateVersionJob, h]
    · have h2 : updateVersionJob s v = (⟨updateTauriVersion s.committed v⟩, 1) := by
        simp [updateVersionJob, h]
      rw [h2]
      simp [updateVersionJob, updateTauriVersion]
  · by_cases h : p.version = v
    · simp [updatePackageJsonJob, h]
    · simp [updatePackageJsonJob, h]

/-- C3 counterexample: the resolved version 1.0- contains a hyphen and its
prefix before the first hyphen is 1.0, yet the Windows MSI fix leaves the
string unchanged, because the PowerShell pattern requires at least one
character after the hyphen. -/
theorem C3_trailing_hyphen_counterexample :
    ("1.0-").data.contains '-' = true ∧
    String.mk (("1.0-").data.takeWhile (fun c => c ≠ '-')) = "1.0" ∧
    desktopManifestVersion "1.0-" .windows = "1.0-" := by
  exact ⟨by decide, by decide, by decide⟩

/-- C3 (amended): the MSI fix touches only the Windows leg of the desktop
matrix; when the resolved version has a hyphen followed by at least one
character, the Windows copy becomes the prefix before the first such hyphen;
otherwise (no hyphen, or the only hyphen is the final character) the Windows
copy is unchanged; every other leg keeps the resolved version as is. -/
theorem C3_windows_normalization (v : String) :
    (∀ p : DesktopPlatform, p ≠ .windows → desktopManifestVersion v p = v) ∧
    (winVersionNeedsFix v = true →
      desktopManifestVersion v .windows = String.mk (v.data.takeWhile (fun c => c ≠ '-'))) ∧
    (winVersionNeedsFix v = false → desktopManifestVersion v .windows = v) := by
  refine ⟨?_, ?_, ?_⟩
  · intro p hp
    cases p with
    | windows => exact absurd rfl hp
    | macArm => rfl
    | macIntel => rfl
    | linux => rfl
  · intro h
    simp [desktopManifestVersion, fixWindowsVersion, h]
  · intro h
    simp [desktopManifestVersion, fixWindowsVersion, h]

/-- C3 witness: a pre-release version is truncated on the Windows leg only,
and a plain version is left alone everywhere. -/
theorem C3_windows_normalization_witness :
    desktopManifestVersion "3.1.0-beta" .windows = "3.1.0" ∧
    desktopManifestVersion "3.1.0-beta" .linux = "3.1.0-beta" ∧
    desktopManifestVersion "3.1.0" .windows = "3.1.0" := by
  refine ⟨?_, ?_, ?_⟩
  · have h := (C3_windows_normalization "3.1.0-beta").2.1 (by decide)
    have e : String.mk (("3.1.0-beta").data.takeWhile (fun c => c ≠ '-')) = "3.1.0" := by decide
    exact e ▸ h
  · exact (C3_windows_normalization "3.1.0-beta").1 .linux (by decide)
  · exact (C3_windows_normalization "3.1.0").2.2 (by decide)

/-- C4 counterexample: the container-image build matrix writes no fail-fast
key, so the platform default applies and the failure of one architecture leg
cancels its in-progress sibling, contrary to the claim that no fan-out matrix
ever cancels a sibling. -/
theorem C4_docker_matrix_cancels_counterexample :
    cancelsSiblingsOnFailure dockerBuildStrategy = true ∧
    dockerBuildStrategy.failFastSetting = none := ⟨rfl, rfl⟩

/-- C4 (amended): the desktop matrix disables fail-fast, so a failing desktop
leg cancels no sibling, while the docker build matrix omits the key and
inherits the default true, under which a failing leg cancels its in-progress
sibling; in both workflows a failed predecessor makes every stage whose join
barrier includes it not run. -/
theorem C4_fanout_failure_policy :
    cancelsSiblingsOnFailure publishDesktopStrategy = false ∧
    effectiveFailFast dockerBuildStrategy = true ∧
    (∀ before after : List Bool, joinBarrierRuns (before ++ false :: after) = false) := by
  refine ⟨rfl, rfl, ?_⟩
  intro before after
  simp [joinBarrierRuns]

/-- C5 counterexample: the Create manifest list and push step checks no
digest count; invoked with a single digest file while two platforms are
declared, it publishes to both registries a manifest list holding only that
digest, a degraded success rather than a hard error. -/
theorem C5_partial_merge_counterexample :
    mergeStep ["aaa"] ["1.2.3"] =
      some [⟨"blinkospace/blinko", ["1.2.3"], ["aaa"]⟩,
            ⟨"ghcr.io/blinkospace/blinko", ["1.2.3"], ["aaa"]⟩] ∧
    declaredPlatforms.length = 2 := ⟨rfl, rfl⟩

/-- C5 (amended): the merge step performs no explicit digest-count check (a
nonempty proper subset of the digests would be published as a partial
manifest; only an empty digest directory fails, through the literal glob);
the invariant holds through the join barrier instead: merge runs only when
the build job succeeded, which requires every declared platform to have
uploaded its digest, so whenever merge runs the collected set has one digest
per declared platform and the pushed manifests reference every one. -/
theorem C5_merge_join_barrier (r : DockerBuildRun) (tags : List String)
    (h : mergeJobRuns r = true) :
    (collectedDigestFiles r).length = declaredPlatforms.length ∧
    ∃ pushes, mergeStep (collectedDigestFiles r) tags = some pushes ∧
      pushes ≠ [] ∧
      ∀ push ∈ pushes, ∀ p : ImagePlatform, ∀ d, r.uploadedDigest p = some d →
        d ∈ push.digests := by
  simp only [mergeJobRuns, buildJobSucceeded, declaredPlatforms, List.all_cons,
    List.all_nil, Bool.and_true, Bool.and_eq_true] at h
  obtain ⟨h1, h2⟩ := h
  obtain ⟨d1, hd1⟩ := Option.isSome_iff_exists.mp h1
  obtain ⟨d2, hd2⟩ := Option.isSome_iff_exists.mp h2
  have hc : collectedDigestFiles r = [d1, d2] := by
    simp [collectedDigestFiles, declaredPlatforms, hd1, hd2]
  constructor
  · rw [hc]; rfl
  · refine ⟨[⟨"blinkospace/blinko", tags, List.insertionSort (· ≤ ·) [d1, d2]⟩,
             ⟨"ghcr.io/blinkospace/blinko", tags, List.insertionSort (· ≤ ·) [d1, d2]⟩],
      ?_, by simp, ?_⟩
    · rw [hc]
      simp [mergeStep]
    · intro push hpush p d hd
      have hmem : d ∈ [d1, d2] := by
        cases p with
        | amd64 =>
            rw [hd1] at hd
            simp only [Option.some.injEq] at hd
            simp [hd]
        | arm64 =>
            rw [hd2] at hd
            simp only [Option.some.injEq] at hd
            simp [hd]
      have hmem2 : d ∈ List.insertionSort (· ≤ ·) [d1, d2] :=
        ((List.perm_insertionSort (· ≤ ·) [d1, d2]).mem_iff).mpr hmem
      simp only [List.mem_cons, List.not_mem_nil, or_false] at hpush
      rcases hpush with hp1 | hp1 <;> subst hp1 <;> exact hmem2

/-- C5 witness: a run in which both legs uploaded their digest. -/
theorem C5_merge_join_barrier_witness :
    (collectedDigestFiles
      ⟨fun p => match p with | .amd64 => some "aaa" | .arm64 => some "bbb"⟩).length =
      declaredPlatforms.length :=
  (C5_merge_join_barrier
    ⟨fun p => match p with | .amd64 => some "aaa" | .arm64 => some "bbb"⟩
    ["1.0.0"] rfl).1

/-- C6: with one digest per declared platform and the resolved tag set, the
merge step publishes to exactly the two configured registries, each push
carrying every tag (the version, plus latest when enabled) and every
collected digest; and the output depends only on the digest set: any two
listings of the same digest files produce identical manifest pushes, because
the shell glob enumerates the digest directory in sorted order. -/
theorem C6_merge_complete_deterministic (d1 d2 v : String) (latestOn : Bool) :
    (∃ ds, mergeStep [d1, d2] (metaTags v latestOn) =
        some [⟨"blinkospace/blinko", metaTags v latestOn, ds⟩,
              ⟨"ghcr.io/blinkospace/blinko", metaTags v latestOn, ds⟩] ∧
      d1 ∈ ds ∧ d2 ∈ ds ∧ v ∈ metaTags v latestOn ∧
      (latestOn = true → "latest" ∈ metaTags v latestOn)) ∧
    (∀ files1 files2 : List String, files1.Perm files2 →
      mergeStep files1 (metaTags v latestOn) = mergeStep files2 (metaTags v latestOn)) := by
  constructor
  · refine ⟨List.insertionSort (· ≤ ·) [d1, d2], ?_, ?_, ?_, ?_, ?_⟩
    · simp [mergeStep]
    · exact ((List.perm_insertionSort (· ≤ ·) [d1, d2]).mem_iff).mpr (by simp)
    · exact ((List.perm_insertionSort (· ≤ ·) [d1, d2]).mem_iff).mpr (by simp)
    · cases latestOn <;> simp [metaTags]
    · intro h
      simp [metaTags, h]
  · intro f1 f2 hperm
    by_cases h1 : f1 = []
    · subst h1
      have h2 : f2 = [] := hperm.symm.eq_nil
      subst h2
      rfl
    · have h2 : f2 ≠ [] := by
        intro h
        subst h
        exact h1 hperm.eq_nil
      have hsort : List.insertionSort (· ≤ ·) f1 = List.insertionSort (· ≤ ·) f2 :=
        List.eq_of_perm_of_sorted
          ((List.perm_insertionSort _ f1).trans (hperm.trans (List.perm_insertionSort _ f2).symm))
          (List.sorted_insertionSort _ f1) (List.sorted_insertionSort _ f2)
      unfold mergeStep
      rw [if_neg h1, if_neg h2]
      show some [ManifestPush.mk "blinkospace/blinko" (metaTags v latestOn)
                   (List.insertionSort (· ≤ ·) f1),
                 ManifestPush.mk "ghcr.io/blinkospace/blinko" (metaTags v latestOn)
                   (List.insertionSort (· ≤ ·) f1)] =
           some [ManifestPush.mk "blinkospace/blinko" (metaTags v latestOn)
                   (List.insertionSort (· ≤ ·) f2),
                 ManifestPush.mk "ghcr.io/blinkospace/blinko" (metaTags v latestOn)
                   (List.insertionSort (· ≤ ·) f2)]
      rw [hsort]

/-- C6 witness: two arrival orders of the same digest pair give the same
pushes, and the concrete scenario of the spec is published under both tags. -/
theorem C6_merge_complete_deterministic_witness :
    mergeStep ["D2", "D1"] (metaTags "1.2.3" true) =
      mergeStep ["D1", "D2"] (metaTags "1.2.3" true) ∧
    "latest" ∈ metaTags "1.2.3" true :=
  ⟨(C6_merge_complete_deterministic "D1" "D2" "1.2.3" true).2 ["D2", "D1"] ["D1", "D2"]
      (List.Perm.swap "D1" "D2" []),
   by
    obtain ⟨ds, hds⟩ := (C6_merge_complete_deterministic "D1" "D2" "1.2.3" true).1
    exact hds.2.2.2.2 rfl⟩

/-- C7 counterexample: the Prepare step of the docker build job recomputes
the version from the raw github context inside its own shell step; it does
not read the version as a shared output, so not every downstream job consumes
the resolved value as a shared immutable parameter. -/
theorem C7_rederivation_counterexample :
    dockerBuildPrepareSource ≠ VersionSource.sharedOutput ∧
    VersionSource.sharedOutput ∉ dockerWorkflowVersionSources := by decide

/-- C7 (amended): in the App Release workflow the version is resolved once by
set-version and every downstream job reads that shared output; in the docker
workflow every job instead recomputes the version in its own step, but the
four scripts are the same pure function of the immutable trigger context (the
trigger job being gated on workflow_dispatch), so all jobs of one run still
agree on a single canonical value. -/
theorem C7_single_version_value (c : DockerCtx) :
    (∀ src ∈ appReleaseDownstreamSources, src = VersionSource.sharedOutput) ∧
    (∀ src ∈ dockerWorkflowVersionSources, src = VersionSource.rederivedFromContext) ∧
    dockerPrepareStep c = dockerGetVersionStep c ∧
    dockerExtractVersionStep c = dockerGetVersionStep c ∧
    (c.eventName = "workflow_dispatch" →
      dockerTriggerGetVersionStep c = dockerGetVersionStep c) := by
  refine ⟨by decide, by decide, rfl, rfl, ?_⟩
  intro h
  by_cases hv : c.inputsVersion = ""
  · simp [dockerTriggerGetVersionStep, dockerGetVersionStep, h, hv]
  · simp [dockerTriggerGetVersionStep, dockerGetVersionStep, h, hv]

/-- C7 witness: on a concrete manual-dispatch context every docker job script
yields the same value. -/
theorem C7_single_version_value_witness :
    dockerTriggerGetVersionStep ⟨"workflow_dispatch", "1.2.3", "main"⟩ =
      dockerGetVersionStep ⟨"workflow_dispatch", "1.2.3", "main"⟩ :=
  (C7_single_version_value ⟨"workflow_dispatch", "1.2.3", "main"⟩).2.2.2.2 rfl

/-- C8: starting from a store with no record for the resolved version, the
desktop and android publish steps give, in either completion order, exactly
one record for that version, non-draft, with the placeholder body, holding
the desktop files and the renamed APK together; neither order drops the
sibling files, the two asset lists being permutations of one another. -/
theorem C8_publish_order_tolerant (v : String) (desktopFiles : List String) :
    androidPublishStep v (desktopPublishStep v desktopFiles []) =
      [⟨v, placeholderBody, false, desktopFiles ++ [apkName v]⟩] ∧
    desktopPublishStep v desktopFiles (androidPublishStep v []) =
      [⟨v, placeholderBody, false, apkName v :: desktopFiles⟩] ∧
    (desktopFiles ++ [apkName v]).Perm (apkName v :: desktopFiles) := by
  refine ⟨?_, ?_, ?_⟩
  · simp [androidPublishStep, desktopPublishStep, publishRelease]
  · simp [androidPublishStep, desktopPublishStep, publishRelease]
  · exact List.perm_append_singleton _ _

/-- C9 counterexample: the App Release workflow declares no concurrency
block, so it is not the case that every pipeline declares a cancel-superseded
concurrency group; two App Release runs for the same target are not
serialised by any such group. -/
theorem C9_app_release_no_concurrency_counterexample :
    appReleaseConcurrency = none := rfl

/-- C9 (amended): only the docker workflow declares a concurrency setting,
keyed by the workflow name and the git ref with cancel-in-progress true, so a
new docker run for a ref cancels a still-running prior run for the same ref;
the App Release workflow declares none. -/
theorem C9_concurrency_declarations :
    appReleaseConcurrency = none ∧
    dockerWorkflowConcurrency = some dockerConcurrency ∧
    dockerConcurrency.cancelInProgress = true ∧
    ∀ ref : String,
      dockerConcurrency.groupOfRef ref = "Build and Push Release Docker Image-" ++ ref :=
  ⟨rfl, rfl, rfl, fun _ => rfl⟩

/-- C10 counterexample: with resolved version 3.1.0-beta the Windows leg
builds against a manifest whose version field is 3.1.0, not the resolved
version, because the MSI fix runs after the artifact download. -/
theorem C10_windows_manifest_counterexample :
    manifestAtBuild "0.9.0" "3.1.0-beta" (.desktop .windows) = "3.1.0" ∧
    ("3.1.0" : String) ≠ "3.1.0-beta" := by
  exact ⟨by decide, by decide⟩

/-- C10 (amended): every build job builds against the downloaded artifact
manifest rather than its own checkout, so the build-time version never
depends on the committed version of the checked-out ref; the artifact carries
exactly the resolved version, and the build-time version equals the resolved
version for the android job and every non-Windows desktop leg, while the
Windows leg builds against the MSI-fixed version, equal to the resolved
version whenever no hyphen is followed by a character. -/
theorem C10_builds_use_artifact_version (committed resolved : String) (conf : TauriConf)
    (j : BuildJob) :
    manifestAtBuild committed resolved j = manifestAtBuild "" resolved j ∧
    (updateTauriVersion conf resolved).version = resolved ∧
    (j ≠ .desktop .windows → manifestAtBuild committed resolved j = resolved) ∧
    manifestAtBuild committed resolved (.desktop .windows) = fixWindowsVersion resolved ∧
    (winVersionNeedsFix resolved = false →
      manifestAtBuild committed resolved (.desktop .windows) = resolved) := by
  refine ⟨?_, rfl, ?_, rfl, ?_⟩
  · cases j with
    | android => rfl
    | desktop p => cases p <;> rfl
  · intro hj
    cases j with
    | android => rfl
    | desktop p =>
        cases p with
        | windows => exact absurd rfl hj
        | macArm => rfl
        | macIntel => rfl
        | linux => rfl
  · intro h
    simp [manifestAtBuild, downloadArtifactStep, fixWindowsVersion, h]

/-- C10 witness: with a stale checkout and a hyphen-free resolved version,
both the android job and the Windows leg build against the resolved
version. -/
theorem C10_builds_use_artifact_version_witness :
    manifestAtBuild "0.9.0" "2.0.0" BuildJob.android = "2.0.0" ∧
    manifestAtBuild "0.9.0" "2.0.0" (.desktop .windows) = "2.0.0" :=
  ⟨(C10_builds_use_artifact_version "0.9.0" "2.0.0" ⟨"0.9.0", ""⟩ .android).2.2.1 (by decide),
   (C10_builds_use_artifact_version "0.9.0" "2.0.0" ⟨"0.9.0", ""⟩
      (.desktop .windows)).2.2.2.2 (by decide)⟩
